import Mathlib

/-!
# Verification of the Netflix data dashboard's data-preparation and filtering pipeline

Shallow embedding of the pipeline implemented in `dashboard.py`, `data.py` and
`ui.py`: the dataset loader/cleaner, the filter engine, the country-code
resolver and the aggregation helpers, together with theorems settling the
specification's claims about them.

Tabular data is modelled as a `List Row`; a pandas cell that may hold `NaN`
is an `Option`.  External collaborators (the pandas date parser, the
`pycountry` registry) are parameters of the embedded functions, so every
theorem quantifies over their behaviour except where a claim pins a concrete
fact about them down (stated then as an explicit hypothesis).
-/

namespace Netflix

/-- One row of the working table.  Fields mirror the CSV columns used by the
dashboard; every field is an `Option` because the raw CSV may leave any cell
empty (pandas `NaN`).  `year_added` is the derived column created by the
cleaner (`df["year_added"] = df["date_added"].dt.year`). -/
structure Row where
  title : Option String
  vtype : Option String
  country : Option String
  release_year : Option Int
  date_added : Option String
  rating : Option String
  duration : Option String
  listed_in : Option String
  description : Option String
  year_added : Option Int
deriving DecidableEq, Repr

/-! ## String helpers

`splitCS` embeds pandas `.str.split(", ")`: it scans left to right and splits
on each non-overlapping occurrence of the exact two-character delimiter
`", "` (a comma followed by a space).  `isSubstr` embeds the Python membership
test `c in x` on strings (substring containment). -/

/-- Split a character list on each non-overlapping occurrence of `", "`,
scanning left to right and accumulating the current token in reverse in
`acc`. -/
def splitCS : List Char → List Char → List (List Char)
  | [], acc => [acc.reverse]
  | [c], acc => [(c :: acc).reverse]
  | c1 :: c2 :: rest, acc =>
    if c1 == ',' && c2 == ' ' then acc.reverse :: splitCS rest []
    else splitCS (c2 :: rest) (c1 :: acc)

/-- Embeds pandas `s.split(", ")` on a string cell. -/
def splitCountries (s : String) : List String :=
  (splitCS s.data []).map List.asString

/-- Returns `true` iff the character list contains a comma immediately followed by a
space, i.e. iff pandas `.str.split(", ")` would split it. -/
def hasCommaSpace : List Char → Bool
  | [] => false
  | [_] => false
  | c1 :: c2 :: rest => (c1 == ',' && c2 == ' ') || hasCommaSpace (c2 :: rest)

/-- Embeds Python `needle in hay` for strings: substring containment. -/
def isSubstr (needle : List Char) : List Char → Bool
  | [] => needle.isEmpty
  | c :: rest => needle.isPrefixOf (c :: rest) || isSubstr needle rest

/-- Python `c in x` on the `String` wrappers. -/
def strContains (needle hay : String) : Bool :=
  isSubstr needle.data hay.data

/-! ## Filter Engine (`dashboard.py`, lines 63–74)

The source applies three dataframe masks in sequence:

    filtered_df = df[(df["release_year"] >= lo) & (df["release_year"] <= hi)]
    if content_type != "All":
        filtered_df = filtered_df[filtered_df["type"] == content_type]
    if selected_countries:
        filtered_df = filtered_df[
            filtered_df["country"].apply(lambda x: any(c in x for c in selected_countries))]

A pandas comparison with a missing value is `False`, so each predicate maps a
`none` cell to `false`. -/

/-- The sidebar's filter parameters: content type (`"All"`, `"Movie"` or
`"TV Show"`), selected countries, inclusive release-year range. -/
structure FilterParams where
  contentType : String
  countries : List String
  yearMin : Int
  yearMax : Int
deriving DecidableEq, Repr

/-- Embeds `(df["release_year"] >= lo) & (df["release_year"] <= hi)` on one row. -/
def yearOk (p : FilterParams) (r : Row) : Bool :=
  match r.release_year with
  | some y => decide (p.yearMin ≤ y) && decide (y ≤ p.yearMax)
  | none => false

/-- Embeds `df["type"] == content_type` on one row. -/
def typeOk (p : FilterParams) (r : Row) : Bool :=
  r.vtype == some p.contentType

/-- Embeds `any(c in x for c in selected_countries)` on one row's country cell. -/
def countryOk (sel : List String) (r : Row) : Bool :=
  match r.country with
  | some x => sel.any (fun c => strContains c x)
  | none => false

/-- The filter engine: the three sequential masks of `dashboard.py` 63–74.
The second mask runs only when `content_type != "All"`, the third only when
`selected_countries` is truthy (non-empty). -/
def filtered_df (p : FilterParams) (df : List Row) : List Row :=
  let f1 := df.filter (yearOk p)
  let f2 := if p.contentType != "All" then f1.filter (typeOk p) else f1
  if !p.countries.isEmpty then f2.filter (countryOk p.countries) else f2

/-- The row predicate the three masks jointly implement. -/
def matchesFilter (p : FilterParams) (r : Row) : Bool :=
  yearOk p r
    && (if p.contentType != "All" then typeOk p r else true)
    && (if !p.countries.isEmpty then countryOk p.countries r else true)

theorem filtered_df_eq_filter (p : FilterParams) (df : List Row) :
    filtered_df p df = df.filter (matchesFilter p) := by
  unfold filtered_df matchesFilter
  cases h1 : (p.contentType != "All") <;> cases h2 : (!p.countries.isEmpty) <;>
      simp [h1, h2, List.filter_filter, Bool.and_assoc] <;>
    exact List.filter_congr fun a _ => by
      cases yearOk p a <;> cases typeOk p a <;> cases countryOk p.countries a <;> rfl

/-! ## Dataset Loader/Cleaner (`data.py` 5–36, `dashboard.py` 16–30)

Both files clean the fetched table the same way:

    df["date_added"] = pd.to_datetime(df["date_added"].str.strip(), errors="coerce")
    df["year_added"] = df["date_added"].dt.year
    df = df.dropna(subset=["rating", "release_year", "year_added", "country"])
    df["release_year"] = df["release_year"].astype(int)
    df["year_added"] = df["year_added"].astype(int)

The composite `pd.to_datetime(·, errors="coerce").dt.year` — parse a date
string, yielding its calendar year, or missing (`NaT`/`NaN`) when the string
is unparseable — is the external pandas collaborator; it is modelled as a
parameter `parseYear : String → Option Int` (`none` = coercion to `NaT`).
`release_year` and `year_added` are stored as `Int`, reflecting the
`astype(int)` coercions.  They differ in failure handling: `data.py` wraps
everything in `try/except Exception`, shows `st.error(...)` and returns an
empty dataframe; `dashboard.py` has no handler, so any exception from the
fetch or the cleaning propagates to the caller. -/

/-- Derive `year_added` from `date_added` on one row:
`to_datetime(strip(date_added), errors="coerce").dt.year`. -/
def addYearAdded (parseYear : String → Option Int) (r : Row) : Row :=
  { r with year_added := (r.date_added.map String.trim).bind parseYear }

/-- Embeds `dropna(subset=["rating", "release_year", "year_added", "country"])`:
keep a row iff all four cells are present. -/
def keepRow (r : Row) : Bool :=
  r.rating.isSome && r.release_year.isSome && r.year_added.isSome && r.country.isSome

/-- The cleaning steps shared by `data.py` and `dashboard.py`: derive
`year_added`, then drop rows missing any of the four required cells. -/
def cleanRows (parseYear : String → Option Int) (raw : List Row) : List Row :=
  (raw.map (addYearAdded parseYear)).filter keepRow

/-- Result of `data.py`'s `load_data`: the table it returns plus the
`st.error` message it surfaced to the user, if any. -/
structure LoadOutcome where
  table : List Row
  errorMessage : Option String
deriving DecidableEq, Repr

/-- The function `load_data` of `data.py` (lines 5–36).  `fetch` models
`pd.read_csv(url)` together with any exception the cleaning itself could
raise: `Except.error e` is an `Exception` with message `e` raised inside the
`try` block.  The `except Exception` arm calls
`st.error(f"Error loading or processing data: {e}")` and returns
`pd.DataFrame()`. -/
def data_load_data (parseYear : String → Option Int)
    (fetch : Except String (List Row)) : LoadOutcome :=
  match fetch with
  | .ok raw => { table := cleanRows parseYear raw, errorMessage := none }
  | .error e =>
    { table := [], errorMessage := some ("Error loading or processing data: " ++ e) }

/-- The function `load_data` of `dashboard.py` (lines 16–30): the same fetch-and-clean
steps with no `try/except`, so an exception from the fetch propagates to the
caller unchanged. -/
def dashboard_load_data (parseYear : String → Option Int)
    (fetch : Except String (List Row)) : Except String (List Row) :=
  match fetch with
  | .ok raw => .ok (cleanRows parseYear raw)
  | .error e => .error e

/-! ## Country Code Resolver (`ui.py` 9–27, `get_iso_alpha`)

    country_map = {"United States": "USA", ..., "Czech Republic": "CZE"}
    if country_name in country_map:
        return country_map[country_name]
    try:
        return pycountry.countries.get(name=country_name).alpha_3
    except AttributeError:
        try:
            return pycountry.countries.search_fuzzy(country_name)[0].alpha_3
        except LookupError:
            return None

The `pycountry` registry is the external collaborator, modelled by a
`Registry`: `exactLookup` is `countries.get(name=·)` followed by `.alpha_3`
(`none` = `get` returned `None`, so `.alpha_3` raises `AttributeError`);
`searchFuzzy` is `countries.search_fuzzy(·)[0].alpha_3` (`none` = the search
raises `LookupError`).  The embedding returns `Except PyExc (Option String)`
so that "an exception escapes the function" is representable: the source's
two `except` arms each catch exactly one exception class, and any other
exception would propagate (the `.error` branches below). -/

/-- The Python exception classes relevant to `get_iso_alpha`. -/
inductive PyExc where
  | attributeError
  | lookupError
deriving DecidableEq, Repr

/-- The `pycountry` registry, abstracted: each lookup yields the alpha-3 code
of the matched country, or `none` when the lookup fails (raising
`AttributeError` resp. `LookupError` at the call sites in the source). -/
structure Registry where
  exactLookup : String → Option String
  searchFuzzy : String → Option String

/-- The fixed override table `country_map` of `get_iso_alpha`. -/
def country_map : List (String × String) :=
  [("United States", "USA"), ("United Kingdom", "GBR"), ("South Korea", "KOR"),
   ("West Germany", "DEU"), ("Soviet Union", "RUS"), ("Czech Republic", "CZE")]

/-- Python `country_map[country_name]` guarded by `country_name in country_map`. -/
def lookupMap (m : List (String × String)) (k : String) : Option String :=
  (m.find? (fun p => p.1 == k)).map (fun p => p.2)

/-- Embeds `pycountry.countries.get(name=name).alpha_3`: raises `AttributeError`
when `get` finds nothing (it returns `None`, which has no `.alpha_3`). -/
def registryExactAlpha3 (reg : Registry) (name : String) : Except PyExc String :=
  match reg.exactLookup name with
  | some c => .ok c
  | none => .error .attributeError

/-- Embeds `pycountry.countries.search_fuzzy(name)[0].alpha_3`: raises
`LookupError` when the fuzzy search finds nothing. -/
def registryFuzzyAlpha3 (reg : Registry) (name : String) : Except PyExc String :=
  match reg.searchFuzzy name with
  | some c => .ok c
  | none => .error .lookupError

/-- The function `get_iso_alpha` of `ui.py` (lines 9–27).  `Except.ok v` means the call
returns `v` (`none` = Python `None`); `Except.error e` would mean exception
`e` escapes the function. -/
def get_iso_alpha (reg : Registry) (country_name : String) :
    Except PyExc (Option String) :=
  match lookupMap country_map country_name with
  | some code => .ok (some code)
  | none =>
    match registryExactAlpha3 reg country_name with
    | .ok c => .ok (some c)
    | .error .attributeError =>
      match registryFuzzyAlpha3 reg country_name with
      | .ok c => .ok (some c)
      | .error .lookupError => .ok none
      | .error e => .error e
    | .error e => .error e

/-! ## Aggregation Helpers

`dashboard.py` 113–115 / `ui.py` 206–208 (top-10 country bar chart):

    filtered_df["country"].str.split(", ").explode().value_counts().nlargest(10)

`ui.py` 61–66 (choropleth input): the same without `nlargest`, then
`get_iso_alpha` per country and `dropna`.  `ui.py` 36–41 (sidebar options):
`sorted(df["country"].str.split(", ").explode().unique())`.

`value_counts` counts each distinct value's occurrences and sorts by count
descending (pandas leaves the order of equal counts unspecified; the
embedding uses a deterministic insertion sort, which settles ties in some
fixed way).  `explode` of a column whose missing cells stay missing followed
by `value_counts`/`unique` means a `none` country cell contributes no tokens
(`value_counts` drops `NaN`); on cleaned data no cell is `none`. -/

/-- One row's comma-split country tokens; a missing cell contributes no
tokens (pandas `explode` keeps its `NaN`, which `value_counts`/`unique`
then drop). -/
def rowCountryTokens (r : Row) : List String :=
  match r.country with
  | some s => splitCountries s
  | none => []

/-- Embeds `df["country"].str.split(", ").explode()`, dropping missing cells. -/
def countryTokens (df : List Row) : List String :=
  df.flatMap rowCountryTokens

/-- Distinct values in order of first occurrence (pandas `unique`). -/
def firstOccs (seen : List String) : List String → List String
  | [] => []
  | x :: xs =>
    if x ∈ seen then firstOccs seen xs else x :: firstOccs (x :: seen) xs

/-- Insert a `(value, count)` pair into a count-descending list, before the
first strictly smaller count. -/
def insertDesc (p : String × Nat) : List (String × Nat) → List (String × Nat)
  | [] => [p]
  | q :: qs => if q.2 < p.2 then p :: q :: qs else q :: insertDesc p qs

/-- Insertion sort by count, descending. -/
def sortDesc : List (String × Nat) → List (String × Nat)
  | [] => []
  | p :: ps => insertDesc p (sortDesc ps)

/-- Embeds pandas `Series.value_counts()`: `(value, count)` per distinct value,
sorted by count descending. -/
def value_counts (l : List String) : List (String × Nat) :=
  sortDesc ((firstOccs [] l).map (fun v => (v, l.count v)))

/-- The top-10 country bar chart's data:
`...value_counts().nlargest(10)` (`dashboard.py` 113–115, `ui.py` 206–208). -/
def country_counts (df : List Row) : List (String × Nat) :=
  (value_counts (countryTokens df)).take 10

/-- Insert a string into an ascending list (by the `List Char` lexicographic
order of the character data). -/
def insertAsc (x : String) : List String → List String
  | [] => [x]
  | y :: ys => if x.data ≤ y.data then x :: y :: ys else y :: insertAsc x ys

/-- Insertion sort, ascending (Python `sorted`). -/
def sortAsc : List String → List String
  | [] => []
  | x :: xs => insertAsc x (sortAsc xs)

/-- The sidebar's country options (`ui.py` 36, `dashboard.py` 46):
`sorted(df["country"].str.split(", ").explode().unique())`. -/
def all_countries (df : List Row) : List String :=
  sortAsc (firstOccs [] (countryTokens df))

/-- The choropleth's input rows (`ui.py` 61–66): per-country counts, each
resolved to an ISO code by `get_iso_alpha`, rows whose code is missing (or
whose resolution raised) dropped by `dropna`. -/
def world_map_rows (reg : Registry) (df : List Row) : List (String × Nat × String) :=
  (value_counts (countryTokens df)).filterMap (fun p =>
    match get_iso_alpha reg p.1 with
    | .ok (some a3) => some (p.1, p.2, a3)
    | _ => none)

/-- One of the key-metric counts (`dashboard.py` 84–86, `ui.py` 179–185):
`filtered_df[filtered_df["type"] == t].shape[0]`. -/
def countType (df : List Row) (t : String) : Nat :=
  (df.filter (fun r => r.vtype == some t)).length

/-! ## Concrete sample data used by witnesses and counterexamples -/

/-- A sample cleaned row: a 2020 US movie added in 2017. -/
def movieRow : Row :=
  { title := some "A", vtype := some "Movie", country := some "United States",
    release_year := some 2020, date_added := some "August 4, 2017",
    rating := some "PG", duration := some "90 min", listed_in := some "Dramas",
    description := some "d", year_added := some 2017 }

/-- A sample cleaned row: a 2019 TV show co-produced in India and the US. -/
def tvRow : Row :=
  { movieRow with
    vtype := some "TV Show", country := some "India, United States",
    release_year := some 2019 }

/-- A sample registry standing in for `pycountry`: exact lookup knows
`India`, fuzzy search never matches. -/
def sampleRegistry : Registry where
  exactLookup := fun n => if n = "India" then some "IND" else none
  searchFuzzy := fun _ => none

/-- Every code in the override table is three letters long. -/
theorem country_map_code_length (name c : String)
    (h : lookupMap country_map name = some c) : c.length = 3 := by
  unfold lookupMap at h
  cases hf : country_map.find? (fun p => p.1 == name) with
  | none => rw [hf] at h; cases h
  | some p =>
    rw [hf] at h
    have hmem := List.mem_of_find?_eq_some hf
    have hc : p.2 = c := by cases h; rfl
    subst hc
    simp only [country_map, List.mem_cons, List.not_mem_nil, or_false] at hmem
    rcases hmem with rfl | rfl | rfl | rfl | rfl | rfl <;> rfl

/-! ## Claims about the Dataset Loader/Cleaner's failure semantics (C2) -/

/-- C2 counterexample: the loader in `dashboard.py` (lines 16–30) has no
`try/except`, so a fetch failure propagates the exception to the caller
instead of yielding an empty Dataset with a surfaced error message — the
claim, which quantifies over every run of the Loader/Cleaner, is false for
this loader. -/
theorem C2_counterexample :
    dashboard_load_data (fun _ => none) (Except.error "network failure")
      = Except.error "network failure" := rfl

/-- C2 (amended): on any unrecoverable fetch/parse error, the loader in
`data.py` returns an empty Dataset together with the surfaced
`st.error` message and never propagates the exception (it is a total
function of the fetch outcome); the loader in `dashboard.py`, by contrast,
propagates the exception to its caller unchanged. -/
theorem C2_loader_failure_semantics (parseYear : String → Option Int) (e : String) :
    (data_load_data parseYear (Except.error e)).table = []
    ∧ (data_load_data parseYear (Except.error e)).errorMessage
        = some ("Error loading or processing data: " ++ e)
    ∧ dashboard_load_data parseYear (Except.error e) = Except.error e :=
  ⟨rfl, rfl, rfl⟩

/-! ## Claims about the Country Code Resolver (C3, C5) -/

/-- C3: `get_iso_alpha` resolves through the chain override table → exact
registry lookup → best fuzzy registry match → unresolved (`None`), for every
registry behaviour; in particular `"United States" ↦ "USA"` and
`"Soviet Union" ↦ "RUS"` come from the override table regardless of the
registry, and a name absent from the override table and from both registry
lookups (as `"Wakanda"` is in `pycountry`) yields `None`. -/
theorem C3_resolver_chain (reg : Registry) :
    get_iso_alpha reg "United States" = .ok (some "USA")
    ∧ get_iso_alpha reg "Soviet Union" = .ok (some "RUS")
    ∧ (∀ name code, lookupMap country_map name = some code →
        get_iso_alpha reg name = .ok (some code))
    ∧ (∀ name code, lookupMap country_map name = none →
        reg.exactLookup name = some code →
        get_iso_alpha reg name = .ok (some code))
    ∧ (∀ name code, lookupMap country_map name = none →
        reg.exactLookup name = none → reg.searchFuzzy name = some code →
        get_iso_alpha reg name = .ok (some code))
    ∧ (∀ name, lookupMap country_map name = none →
        reg.exactLookup name = none → reg.searchFuzzy name = none →
        get_iso_alpha reg name = .ok none)
    ∧ (reg.exactLookup "Wakanda" = none → reg.searchFuzzy "Wakanda" = none →
        get_iso_alpha reg "Wakanda" = .ok none) := by
  refine ⟨rfl, rfl, ?_, ?_, ?_, ?_, ?_⟩
  · intro name code hm
    unfold get_iso_alpha
    rw [hm]
  · intro name code hm he
    unfold get_iso_alpha registryExactAlpha3
    rw [hm, he]
  · intro name code hm he hz
    unfold get_iso_alpha registryExactAlpha3 registryFuzzyAlpha3
    rw [hm, he, hz]
  · intro name hm he hz
    unfold get_iso_alpha registryExactAlpha3 registryFuzzyAlpha3
    rw [hm, he, hz]
  · intro he hz
    unfold get_iso_alpha registryExactAlpha3 registryFuzzyAlpha3
    rw [he, hz]
    rfl

/-- Witness for C3 at the sample registry: the three concrete lookups the
claim names. -/
theorem C3_resolver_chain_witness :
    get_iso_alpha sampleRegistry "United States" = .ok (some "USA")
    ∧ get_iso_alpha sampleRegistry "Soviet Union" = .ok (some "RUS")
    ∧ get_iso_alpha sampleRegistry "Wakanda" = .ok none := by
  have h := C3_resolver_chain sampleRegistry
  exact ⟨h.1, h.2.1, h.2.2.2.2.2.2 (by decide) rfl⟩

/-- C5: for every registry whose codes are ISO alpha-3 (three letters, as
`pycountry`'s are) and every input string, `get_iso_alpha` returns normally
— both of the source's exception paths (`AttributeError` from a failed exact
lookup, `LookupError` from a failed fuzzy search) are caught — and the value
returned is either the unresolved sentinel `None` or a 3-letter code. -/
theorem C5_resolver_total (reg : Registry)
    (hex : ∀ n c, reg.exactLookup n = some c → c.length = 3)
    (hfz : ∀ n c, reg.searchFuzzy n = some c → c.length = 3)
    (name : String) :
    ∃ v, get_iso_alpha reg name = .ok v
      ∧ (v = none ∨ ∃ c, v = some c ∧ c.length = 3) := by
  unfold get_iso_alpha registryExactAlpha3 registryFuzzyAlpha3
  cases hm : lookupMap country_map name with
  | some code =>
    exact ⟨some code, rfl, Or.inr ⟨code, rfl, country_map_code_length name code hm⟩⟩
  | none =>
    cases he : reg.exactLookup name with
    | some c => exact ⟨some c, rfl, Or.inr ⟨c, rfl, hex name c he⟩⟩
    | none =>
      cases hz : reg.searchFuzzy name with
      | some c => exact ⟨some c, rfl, Or.inr ⟨c, rfl, hfz name c hz⟩⟩
      | none => exact ⟨none, rfl, Or.inl rfl⟩

/-- Witness for C5: the empty string at the sample registry resolves without
an exception, to `None` or a 3-letter code. -/
theorem C5_resolver_total_witness :
    ∃ v, get_iso_alpha sampleRegistry "" = .ok v
      ∧ (v = none ∨ ∃ c, v = some c ∧ c.length = 3) :=
  C5_resolver_total sampleRegistry
    (by
      intro n c h
      simp only [sampleRegistry] at h
      split at h
      · cases h; rfl
      · cases h)
    (by intro n c h; cases h)
    ""

/-! ## Claims about the Filter Engine's algebra (C7, C8) -/

/-- C7: the filter engine is idempotent — applying `filtered_df` with the
same parameters to its own output returns that output unchanged. -/
theorem C7_filter_idempotent (p : FilterParams) (df : List Row) :
    filtered_df p (filtered_df p df) = filtered_df p df := by
  simp only [filtered_df_eq_filter, List.filter_filter]
  exact List.filter_congr fun a _ => by cases matchesFilter p a <;> rfl

/-- C8: the filter engine's output is a sublist (subsequence) of its input —
only records of the input, no duplication, relative order preserved. -/
theorem C8_filter_sublist (p : FilterParams) (df : List Row) :
    List.Sublist (filtered_df p df) df := by
  rw [filtered_df_eq_filter]
  exact List.filter_sublist df

/-! ## Claim about the key-metric counts (C9) -/

/-- C9: over any filtered Dataset whose records' `type` is the data model's
enum (`"Movie"` or `"TV Show"`, as every record of the source CSV is), the
Movies metric plus the TV Shows metric equals the Total Titles metric.  The
hypothesis is needed because the code counts the two types with two
equality masks and nothing re-checks that no third `type` value exists. -/
theorem C9_type_counts_sum (df : List Row)
    (h : ∀ r ∈ df, r.vtype = some "Movie" ∨ r.vtype = some "TV Show") :
    countType df "Movie" + countType df "TV Show" = df.length := by
  induction df with
  | nil => rfl
  | cons r rest ih =>
    have hr := h r (List.mem_cons_self r rest)
    have hrest := ih fun x hx => h x (List.mem_cons_of_mem r hx)
    unfold countType at hrest ⊢
    have hMM : (some "Movie" == some ("Movie" : String)) = true := rfl
    have hMT : (some "Movie" == some ("TV Show" : String)) = false := rfl
    have hTT : (some "TV Show" == some ("TV Show" : String)) = true := rfl
    have hTM : (some "TV Show" == some ("Movie" : String)) = false := rfl
    rcases hr with hv | hv <;>
      simp only [List.filter_cons, hv, hMM, hMT, hTT, hTM, if_true, if_false,
        Bool.false_eq_true, List.length_cons, reduceIte] <;>
      omega

/-- Witness for C9: one movie and one TV show give 1 + 1 = 2 records. -/
theorem C9_type_counts_sum_witness :
    countType [movieRow, tvRow] "Movie" + countType [movieRow, tvRow] "TV Show" = 2 :=
  C9_type_counts_sum [movieRow, tvRow] (by decide)

/-! ## Claim about the per-record filter predicate (C1) -/

/-- The country condition as C1 words it: the record's comma-split country
token sequence contains (as an element) at least one name present in the
selected `countries`. -/
def claimCountryMatch (sel : List String) (r : Row) : Bool :=
  match r.country with
  | some x => (splitCountries x).any (fun t => sel.contains t)
  | none => false

/-- A cleaned row whose country field is the single name `"South Sudan"`. -/
def southSudanRow : Row :=
  { movieRow with country := some "South Sudan" }

/-- Filter parameters selecting the single country `"Sudan"`. -/
def sudanParams : FilterParams :=
  { contentType := "All", countries := ["Sudan"], yearMin := 2020, yearMax := 2020 }

/-- C1 counterexample: with `countries = ["Sudan"]`, the engine keeps a
record whose only listed country is `"South Sudan"` — the Python test
`c in x` is substring containment on the raw field, and `"Sudan"` is a
substring of `"South Sudan"` — although the record's comma-split token
sequence `["South Sudan"]` contains no name present in `countries`, so the
claim's if-and-only-if is false for this record. -/
theorem C1_counterexample :
    filtered_df sudanParams [southSudanRow] = [southSudanRow]
    ∧ claimCountryMatch sudanParams.countries southSudanRow = false := by
  constructor <;> rfl

theorem yearOk_eq_true_iff (p : FilterParams) (r : Row) :
    yearOk p r = true ↔ ∃ y, r.release_year = some y ∧ p.yearMin ≤ y ∧ y ≤ p.yearMax := by
  unfold yearOk
  cases h : r.release_year <;> simp [h]

theorem typeOk_eq_true_iff (p : FilterParams) (r : Row) :
    typeOk p r = true ↔ r.vtype = some p.contentType := by
  unfold typeOk
  simp

theorem countryOk_eq_true_iff (sel : List String) (r : Row) :
    countryOk sel r = true ↔
      ∃ x, r.country = some x ∧ ∃ c ∈ sel, strContains c x = true := by
  unfold countryOk
  cases h : r.country <;> simp [h, List.any_eq_true]

theorem boolGuard_eq_true_iff (c b : Bool) :
    (if c then b else true) = true ↔ (c = true → b = true) := by
  cases c <;> simp

/-- C1 (amended): a record is in the engine's output iff it is in the input
and its `release_year` lies within `[yearMin, yearMax]` inclusive, and, when
`contentType` is not `"All"`, its `type` equals `contentType`, and, when
`countries` is non-empty, at least one selected country is a substring of
the record's raw comma-joined country field (the Python `c in x` membership
test; not containment of a selected name in the comma-split token
sequence).  Empty `countries` imposes no country constraint. -/
theorem C1_filter_characterization (p : FilterParams) (df : List Row) (r : Row) :
    r ∈ filtered_df p df ↔
      r ∈ df
      ∧ (∃ y, r.release_year = some y ∧ p.yearMin ≤ y ∧ y ≤ p.yearMax)
      ∧ (p.contentType ≠ "All" → r.vtype = some p.contentType)
      ∧ (p.countries ≠ [] →
          ∃ x, r.country = some x ∧ ∃ c ∈ p.countries, strContains c x = true) := by
  rw [filtered_df_eq_filter, List.mem_filter]
  refine and_congr_right fun _ => ?_
  unfold matchesFilter
  have hbne : ((p.contentType != "All") = true) ↔ p.contentType ≠ "All" := bne_iff_ne
  have hne : ((!p.countries.isEmpty) = true) ↔ p.countries ≠ [] := by
    cases p.countries <;> simp
  rw [Bool.and_eq_true, Bool.and_eq_true, boolGuard_eq_true_iff, boolGuard_eq_true_iff,
    yearOk_eq_true_iff]
  rw [and_assoc]
  refine and_congr_right fun _ => and_congr ?_ ?_
  · rw [hbne]
    exact imp_congr Iff.rfl (typeOk_eq_true_iff p r)
  · rw [hne]
    exact imp_congr Iff.rfl (countryOk_eq_true_iff p.countries r)

/-- Witness for C1 (amended): a 2020 US movie passes the filter
`(Movie, ["United States"], [2019, 2021])`. -/
theorem C1_filter_characterization_witness :
    movieRow ∈ filtered_df
      { contentType := "Movie", countries := ["United States"],
        yearMin := 2019, yearMax := 2021 } [movieRow, tvRow] :=
  (C1_filter_characterization _ [movieRow, tvRow] movieRow).mpr
    ⟨List.mem_cons_self _ _,
      ⟨2020, rfl, by decide, by decide⟩,
      fun _ => rfl,
      fun _ => ⟨"United States", rfl, "United States", List.mem_singleton.mpr rfl, rfl⟩⟩

/-! ## Claim about the cleaning invariants (C4) -/

/-- C4: every record surviving the Loader/Cleaner has non-null `rating`,
`release_year`, `year_added` and `country` (the year fields being the `Int`
values of the `astype(int)` coercions), and its `date_added` was present and
parsed successfully — a row with a missing or unparseable `date_added` gets
`year_added = NaN` and is dropped by `dropna`, not repaired. -/
theorem C4_clean_invariants (parseYear : String → Option Int) (raw : List Row)
    (r : Row) (h : r ∈ cleanRows parseYear raw) :
    r.rating.isSome ∧ r.release_year.isSome ∧ r.year_added.isSome ∧ r.country.isSome
    ∧ ∃ s y, r.date_added = some s ∧ parseYear s.trim = some y
        ∧ r.year_added = some y := by
  unfold cleanRows at h
  obtain ⟨hm, hk⟩ := List.mem_filter.mp h
  obtain ⟨r0, _, rfl⟩ := List.mem_map.mp hm
  unfold keepRow at hk
  simp only [Bool.and_eq_true] at hk
  obtain ⟨⟨⟨h1, h2⟩, h3⟩, h4⟩ := hk
  refine ⟨h1, h2, h3, h4, ?_⟩
  cases hd : r0.date_added with
  | none =>
    rw [addYearAdded, hd] at h3
    cases h3
  | some s =>
    have hy : (addYearAdded parseYear r0).year_added = parseYear s.trim := by
      rw [addYearAdded, hd]
      rfl
    rw [hy] at h3
    cases hp : parseYear s.trim with
    | none => rw [hp] at h3; cases h3
    | some y =>
      refine ⟨s, y, ?_, hp, ?_⟩
      · rw [addYearAdded]
        exact hd
      · rw [hy, hp]

/-- A date parser for the witness: every string parses to the year 2017. -/
def parseYearEx : String → Option Int := fun _ => some 2017

/-- The witness row after cleaning. -/
def cleanedMovieRow : Row := addYearAdded parseYearEx movieRow

/-- Witness for C4: the cleaned sample movie row satisfies every invariant. -/
theorem C4_clean_invariants_witness :
    cleanedMovieRow.rating.isSome ∧ cleanedMovieRow.release_year.isSome
    ∧ cleanedMovieRow.year_added.isSome ∧ cleanedMovieRow.country.isSome
    ∧ ∃ s y, cleanedMovieRow.date_added = some s ∧ parseYearEx s.trim = some y
        ∧ cleanedMovieRow.year_added = some y :=
  C4_clean_invariants parseYearEx [movieRow] cleanedMovieRow
    (List.mem_singleton.mpr rfl)

/-! ## Claim about the country-count aggregation (C6) -/

theorem mem_insertDesc (p q : String × Nat) (l : List (String × Nat)) :
    q ∈ insertDesc p l ↔ q = p ∨ q ∈ l := by
  induction l with
  | nil => simp [insertDesc]
  | cons a l ih =>
    unfold insertDesc
    split
    · simp
    · rw [List.mem_cons, ih, List.mem_cons]
      tauto

theorem mem_sortDesc (q : String × Nat) (l : List (String × Nat)) :
    q ∈ sortDesc l ↔ q ∈ l := by
  induction l with
  | nil => simp [sortDesc]
  | cons a l ih =>
    unfold sortDesc
    rw [mem_insertDesc, ih, List.mem_cons]

theorem sorted_insertDesc (p : String × Nat) (l : List (String × Nat))
    (h : List.Pairwise (fun a b : String × Nat => b.2 ≤ a.2) l) :
    List.Pairwise (fun a b : String × Nat => b.2 ≤ a.2) (insertDesc p l) := by
  induction l with
  | nil => simp [insertDesc]
  | cons a l ih =>
    obtain ⟨ha, hl⟩ := List.pairwise_cons.mp h
    unfold insertDesc
    split
    · rename_i hlt
      refine List.pairwise_cons.mpr ⟨?_, h⟩
      intro b hb
      rcases List.mem_cons.mp hb with rfl | hb
      · omega
      · have := ha b hb
        omega
    · rename_i hge
      refine List.pairwise_cons.mpr ⟨?_, ih hl⟩
      intro b hb
      rcases (mem_insertDesc p b l).mp hb with rfl | hb
      · omega
      · exact ha b hb

theorem sorted_sortDesc (l : List (String × Nat)) :
    List.Pairwise (fun a b : String × Nat => b.2 ≤ a.2) (sortDesc l) := by
  induction l with
  | nil => simp [sortDesc]
  | cons a l ih => exact sorted_insertDesc a (sortDesc l) ih

theorem value_counts_count (l : List String) (c : String) (n : Nat)
    (h : (c, n) ∈ value_counts l) : n = l.count c := by
  unfold value_counts at h
  rw [mem_sortDesc] at h
  obtain ⟨v, _, heq⟩ := List.mem_map.mp h
  obtain ⟨rfl, rfl⟩ := Prod.mk.injEq .. ▸ heq
  rfl

theorem count_flatMap {α : Type} (x : String) (f : α → List String) :
    ∀ l : List α, (l.flatMap f).count x = (l.map (fun a => (f a).count x)).sum
  | [] => rfl
  | a :: l => by
    simp only [List.flatMap_cons, List.count_append, List.map_cons, List.sum_cons,
      count_flatMap x f l]

/-- C6: every entry `(c, n)` of the top-10 country aggregation counts
exactly the occurrences of `c` among the comma-split country tokens of all
records — equivalently the per-record token counts summed over the Dataset,
so a record listing `"United States, India"` adds one to each name — and
the aggregation has at most 10 entries, ordered by descending count. -/
theorem C6_country_counts (df : List Row) (c : String) (n : Nat)
    (h : (c, n) ∈ country_counts df) :
    n = (countryTokens df).count c
    ∧ n = (df.map (fun r => (rowCountryTokens r).count c)).sum
    ∧ (country_counts df).length ≤ 10
    ∧ List.Pairwise (fun a b : String × Nat => b.2 ≤ a.2) (country_counts df) := by
  have hv : (c, n) ∈ value_counts (countryTokens df) :=
    List.mem_of_mem_take h
  have hcount := value_counts_count (countryTokens df) c n hv
  refine ⟨hcount, ?_, ?_, ?_⟩
  · rw [hcount]
    exact count_flatMap c rowCountryTokens df
  · calc (country_counts df).length
        = min 10 (value_counts (countryTokens df)).length := List.length_take ..
      _ ≤ 10 := Nat.min_le_left ..
  · exact (sorted_sortDesc _).sublist (List.take_sublist ..)

/-- Witness for C6: over the two sample rows — countries
`"India, United States"` and `"United States"` — the top entry is
`("United States", 2)`, and all four conclusions hold. -/
theorem C6_country_counts_witness :
    2 = (countryTokens [tvRow, movieRow]).count "United States"
    ∧ 2 = ([tvRow, movieRow].map
        (fun r => (rowCountryTokens r).count "United States")).sum
    ∧ (country_counts [tvRow, movieRow]).length ≤ 10
    ∧ List.Pairwise (fun a b : String × Nat => b.2 ≤ a.2)
        (country_counts [tvRow, movieRow]) :=
  C6_country_counts [tvRow, movieRow] "United States" 2 (by decide)

/-! ## Claim about the split delimiter (C10) -/

theorem splitCS_no_sep : ∀ (l acc : List Char), hasCommaSpace l = false →
    splitCS l acc = [acc.reverse ++ l]
  | [], _, _ => by simp [splitCS]
  | [c], _, _ => by simp [splitCS]
  | c1 :: c2 :: rest, acc, h => by
    unfold hasCommaSpace at h
    rw [Bool.or_eq_false_iff] at h
    obtain ⟨h1, h2⟩ := h
    unfold splitCS
    rw [h1]
    simp only [Bool.false_eq_true, if_false]
    rw [splitCS_no_sep (c2 :: rest) (c1 :: acc) h2]
    simp

/-- C10: the country field is split only on the exact two-character
delimiter `", "`: any country string containing no comma-followed-by-space
— in particular one separating names with a bare comma — stays a single
token, and that whole string is the one token seen by the country-count
aggregation, the choropleth's count stage, and the sidebar's selectable
options, for a Dataset holding such a record. -/
theorem C10_split_exact_delimiter (s : String) (h : hasCommaSpace s.data = false)
    (r : Row) (hr : r.country = some s) :
    splitCountries s = [s]
    ∧ countryTokens [r] = [s]
    ∧ country_counts [r] = [(s, 1)]
    ∧ value_counts (countryTokens [r]) = [(s, 1)]
    ∧ all_countries [r] = [s] := by
  have hsplit : splitCountries s = [s] := by
    unfold splitCountries
    rw [splitCS_no_sep s.data [] h]
    rfl
  have htok : countryTokens [r] = [s] := by
    simp [countryTokens, rowCountryTokens, hr, hsplit]
  have hvc : value_counts (countryTokens [r]) = [(s, 1)] := by
    rw [htok]
    simp [value_counts, firstOccs, sortDesc, insertDesc]
  refine ⟨hsplit, htok, ?_, hvc, ?_⟩
  · unfold country_counts
    rw [hvc]
    rfl
  · unfold all_countries
    rw [htok]
    simp [firstOccs, sortAsc, insertAsc]

/-- Witness for C10: `"United States,India"` (bare comma, no space) stays a
single token through splitting, counting and the sidebar options. -/
theorem C10_split_exact_delimiter_witness :
    splitCountries "United States,India" = ["United States,India"]
    ∧ countryTokens [{ movieRow with country := some "United States,India" }]
        = ["United States,India"]
    ∧ country_counts [{ movieRow with country := some "United States,India" }]
        = [("United States,India", 1)]
    ∧ value_counts (countryTokens
        [{ movieRow with country := some "United States,India" }])
        = [("United States,India", 1)]
    ∧ all_countries [{ movieRow with country := some "United States,India" }]
        = ["United States,India"] :=
  C10_split_exact_delimiter "United States,India" (by decide)
    { movieRow with country := some "United States,India" } rfl

end Netflix
